import Mathlib

/-!
Shallow embedding of `Minion.py` (minion_zoo): a small hierarchy of synthetic
labeling agents.  Python integers are modelled by `Int`, probabilities and
random draws by `ℚ` (the draw of `np.random.randn()` is passed as an explicit
input), and fallible operations return `Except PyErr`.
-/

/-- The Python exception kinds raised by the module. -/
inductive PyErr where
  | valueError
  | notImplementedError
  | nameError
  | indexError
deriving DecidableEq

/-- Decidable equality of `Except` values, used to evaluate the embedded
operations at concrete inputs. -/
instance {ε α : Type} [DecidableEq ε] [DecidableEq α] : DecidableEq (Except ε α) := fun a b =>
  match a, b with
  | Except.ok x, Except.ok y =>
    if h : x = y then Decidable.isTrue (congrArg Except.ok h)
    else Decidable.isFalse (fun hc => h (Except.ok.inj hc))
  | Except.ok _, Except.error _ => Decidable.isFalse (fun hc => Except.noConfusion hc)
  | Except.error _, Except.ok _ => Decidable.isFalse (fun hc => Except.noConfusion hc)
  | Except.error e, Except.error f =>
    if h : e = f then Decidable.isTrue (congrArg Except.error h)
    else Decidable.isFalse (fun hc => h (Except.error.inj hc))

/-- The abstract `Minion` class.  It defines no `__init__`, so instances carry
no data. -/
structure Minion where
deriving DecidableEq

/-- Constructing `Minion()`: the class defines no `__init__`, so the default
`object` constructor runs and succeeds, returning an instance. -/
def Minion.new : Except PyErr Minion :=
  Except.ok ⟨⟩

/-- `Minion.classify(self, subject_id)`: body is `raise NotImplementedError`. -/
def Minion.classify (self : Minion) (subject_id : Int) : Except PyErr (Int × Int) :=
  Except.error PyErr.notImplementedError

/-- `ExpertMinion`: stores the unique Minion id set by `__init__`. -/
structure ExpertMinion where
  id : Int
deriving DecidableEq

/-- `ExpertMinion.classify(self, subject_id, gold_label)`:
`return (subject_id, gold_label)`. -/
def ExpertMinion.classify (self : ExpertMinion) (subject_id gold_label : Int) :
    Int × Int :=
  (subject_id, gold_label)

/-- `ExpertMinion.classify` with the post-call object state made explicit; the
body assigns nothing to `self`, so the state is returned unchanged. -/
def ExpertMinion.classifyS (self : ExpertMinion) (subject_id gold_label : Int) :
    (Int × Int) × ExpertMinion :=
  ((subject_id, gold_label), self)

/-- `AllTheSingleLabelsMinion`: `__init__` stores `id` and the constant
`label`. -/
structure AllTheSingleLabelsMinion where
  id : Int
  label : Int
deriving DecidableEq

/-- `AllTheSingleLabelsMinion.classify(self, subject_id)`:
`return (subject_id, self.label)`. -/
def AllTheSingleLabelsMinion.classify (self : AllTheSingleLabelsMinion)
    (subject_id : Int) : Int × Int :=
  (subject_id, self.label)

/-- `AllTheSingleLabelsMinion.classify` with the post-call object state made
explicit; the body assigns nothing to `self`. -/
def AllTheSingleLabelsMinion.classifyS (self : AllTheSingleLabelsMinion)
    (subject_id : Int) : (Int × Int) × AllTheSingleLabelsMinion :=
  ((subject_id, self.label), self)

/-- `RandomMinion`: `__init__` stores `id` and the list `labels`. -/
structure RandomMinion where
  id : Int
  labels : List Int
deriving DecidableEq

/-- `RandomMinion.classify(self, subject_id)`: the body is
`return (subject_id, np.random.choice(labels))`.  The name `labels` is neither
a local variable nor a module-level global (the attribute is `self.labels`),
so evaluating the argument of `np.random.choice` raises `NameError` on every
call, before any random draw is consumed. -/
def RandomMinion.classify (self : RandomMinion) (subject_id : Int) :
    Except PyErr (Int × Int) :=
  Except.error PyErr.nameError

/-- `RandomMinion.classify` with the post-call object state made explicit; the
body assigns nothing to `self`. -/
def RandomMinion.classifyS (self : RandomMinion) (subject_id : Int) :
    Except PyErr (Int × Int) × RandomMinion :=
  (Except.error PyErr.nameError, self)

/-- `NoisyMinion`: `__init__` stores `id` and the 2-element per-class accuracy
vector `confusion_matrix` (a numpy array, modelled as a list of rationals). -/
structure NoisyMinion where
  id : Int
  confusion_matrix : List ℚ
deriving DecidableEq

/-- `NoisyMinion.__init__(self, id, confusion_matrix)`: the guard is
`if (confusion_matrix < 0).any() and (confusion_matrix > 1).any():`, i.e. it
raises `ValueError` only when some entry is below 0 AND some entry is above 1;
otherwise it stores the matrix unchanged. -/
def NoisyMinion.init (id : Int) (confusion_matrix : List ℚ) :
    Except PyErr NoisyMinion :=
  if (confusion_matrix.any fun x => decide (x < 0)) &&
      (confusion_matrix.any fun x => decide (x > 1)) then
    Except.error PyErr.valueError
  else
    Except.ok ⟨id, confusion_matrix⟩

/-- Scalar indexing of a 1-d numpy array by a Python integer: an index `i`
with `-len ≤ i < 0` selects element `i + len` (end-relative indexing), an
index with `0 ≤ i < len` selects element `i`, and anything else raises
`IndexError`. -/
def npGet (a : List ℚ) (i : Int) : Except PyErr ℚ :=
  let j : Int := if i < 0 then i + (a.length : Int) else i
  if 0 ≤ j then
    match a.get? j.toNat with
    | some x => Except.ok x
    | none => Except.error PyErr.indexError
  else
    Except.error PyErr.indexError

/-- `NoisyMinion.classify(self, subject_id, gold_label)`: the body is
`if np.random.randn() < self.confusion_matrix[gold_label]: return (subject_id,
gold_label) else: return (subject_id, gold_label == 0)`.  The value of the
`np.random.randn()` draw (a standard-normal sample, which ranges over all of
ℝ) is passed as the explicit input `draw`; the Python boolean
`gold_label == 0` on the flip branch has numeric value 1 when `gold_label` is
0 and 0 otherwise. -/
def NoisyMinion.classify (self : NoisyMinion) (subject_id gold_label : Int)
    (draw : ℚ) : Except PyErr (Int × Int) :=
  match npGet self.confusion_matrix gold_label with
  | Except.error e => Except.error e
  | Except.ok p =>
    if draw < p then
      Except.ok (subject_id, gold_label)
    else
      Except.ok (subject_id, if gold_label = 0 then 1 else 0)

/-- `NoisyMinion.classify` with the post-call object state made explicit; the
body assigns nothing to `self`. -/
def NoisyMinion.classifyS (self : NoisyMinion) (subject_id gold_label : Int)
    (draw : ℚ) : Except PyErr (Int × Int) × NoisyMinion :=
  (self.classify subject_id gold_label draw, self)

/-- `MachineLearningMinion.__init__(self, id)`: body is
`raise NotImplementedError`, so no instance is ever produced. -/
def MachineLearningMinion.init (id : Int) : Except PyErr Unit :=
  Except.error PyErr.notImplementedError

/-- `MachineLearningMinion.classify(self, subject_id)`: body is
`raise NotImplementedError`. -/
def MachineLearningMinion.classify (subject_id : Int) : Except PyErr (Int × Int) :=
  Except.error PyErr.notImplementedError

/-- Claim C1 (code behaviour at the failing input): constructing a
`NoisyMinion` with confusion matrix `[-1, 1/2]` — which has an entry below 0 —
succeeds and stores the matrix unchanged, because the validation guard joins
its two `any` tests with `and` instead of `or`; the claim (and the
constructor's own docstring) require a `ValueError` here. -/
theorem noisyMinion_init_accepts_negative_entry :
    NoisyMinion.init 1 [-1, 1/2] = Except.ok ⟨1, [-1, 1/2]⟩ := by
  norm_num [NoisyMinion.init]

/-- Claim C2 (code behaviour at the failing input): with confusion matrix
`[0, 0]` and gold label 0, a `randn` draw of `-1/2` (a standard-normal sample
is negative half the time) satisfies `-1/2 < 0`, so `classify` returns the
gold label — the claim says a correct answer occurs with probability
`confusion_matrix[0] = 0`, i.e. never. -/
theorem noisyMinion_zero_matrix_returns_gold_on_negative_draw :
    NoisyMinion.classify ⟨1, [0, 0]⟩ 5 0 (-1/2) = Except.ok (5, 0) := by
  norm_num [NoisyMinion.classify, npGet]

/-- Claim C3 (code behaviour at the failing input): with confusion matrix
`[1, 1]`, gold label 0 and a `randn` draw of `3/2` (a standard normal exceeds
1 about 16% of the time), `3/2 < 1` is false and `NoisyMinion` returns the
flipped label `(1, 1)`, whereas `ExpertMinion` returns `(1, 0)` — so
`NoisyMinion([1,1])` does not replicate `ExpertMinion`, contrary to the claim
and to the class's own docstring. -/
theorem noisyMinion_unit_matrix_flips_on_large_draw :
    NoisyMinion.classify ⟨7, [1, 1]⟩ 1 0 (3/2) = Except.ok (1, 1) ∧
    ExpertMinion.classify ⟨1⟩ 1 0 = (1, 0) :=
  ⟨by norm_num [NoisyMinion.classify, npGet], rfl⟩

/-- Claim C4 (code behaviour at the failing input): every call to
`RandomMinion.classify` raises `NameError`, because its body reads the
unbound name `labels` instead of the attribute `self.labels`; it never
returns a label drawn from the configured label set. -/
theorem randomMinion_classify_always_nameError (m : RandomMinion) (s : Int) :
    m.classify s = Except.error PyErr.nameError := rfl

/-- Claim C5 (counterexample): constructing the abstract `Minion` succeeds —
the class defines no `__init__`, so the default object constructor runs and
returns an instance — contradicting the claim that construction raises
`NotImplementedError` and never returns a value. -/
theorem minion_construction_succeeds : Minion.new = Except.ok ⟨⟩ := rfl

/-- Claim C5 (amended): `Minion.classify`, `MachineLearningMinion`
construction and `MachineLearningMinion.classify` each raise
`NotImplementedError` and never return a value, while constructing `Minion`
itself succeeds via the inherited default constructor. -/
theorem minion_ml_unimplemented_amended (m : Minion) (s i : Int) :
    m.classify s = Except.error PyErr.notImplementedError ∧
    MachineLearningMinion.init i = Except.error PyErr.notImplementedError ∧
    MachineLearningMinion.classify s = Except.error PyErr.notImplementedError ∧
    Minion.new = Except.ok ⟨⟩ :=
  ⟨rfl, rfl, rfl, rfl⟩

/-- Claim C6 (code behaviour at the failing input): the constructed
Uniform-Random agent `RandomMinion(4, [0, 1])` never returns any
`(subject_id, label)` pair from `classify` — the call raises `NameError` —
so the invariant "every agent's classify returns a pair whose label is in the
valid set" fails for this variant. -/
theorem randomMinion_breaks_classify_invariant (p : Int × Int) :
    RandomMinion.classify ⟨4, [0, 1]⟩ 7 ≠ Except.ok p := by
  intro h
  simp [RandomMinion.classify] at h

/-- Claim C7: for every gold label in the binary class set, `ExpertMinion`
echoes the pair `(subject_id, gold_label)` exactly. -/
theorem expertMinion_classify_returns_gold (m : ExpertMinion) (s g : Int)
    (h : g = 0 ∨ g = 1) : m.classify s g = (s, g) := rfl

/-- Claim C7 witness: `ExpertMinion(id=1).classify(1, 0)` returns `(1, 0)`. -/
theorem expertMinion_classify_returns_gold_witness :
    ((0 : Int) = 0 ∨ (0 : Int) = 1) ∧
    ExpertMinion.classify ⟨1⟩ 1 0 = (1, 0) :=
  ⟨Or.inl rfl, expertMinion_classify_returns_gold ⟨1⟩ 1 0 (Or.inl rfl)⟩

/-- Claim C8: an `AllTheSingleLabelsMinion` constructed with label `L`
returns `(s, L)` for every subject `s`, ignoring the subject identity. -/
theorem allTheSingleLabelsMinion_classify_constant (i L s : Int) :
    (AllTheSingleLabelsMinion.mk i L).classify s = (s, L) := rfl

/-- Claim C9: no `classify` call mutates the agent: for each variant the
post-call state equals the pre-call state, and a repeated call with the same
inputs and the same random draw — issued after an arbitrary earlier call —
produces the same result. -/
theorem classify_preserves_state (e : ExpertMinion)
    (a : AllTheSingleLabelsMinion) (r : RandomMinion) (n : NoisyMinion)
    (s g s' g' : Int) (d d' : ℚ) :
    (e.classifyS s g).2 = e ∧
    (a.classifyS s).2 = a ∧
    (r.classifyS s).2 = r ∧
    (n.classifyS s g d).2 = n ∧
    ((e.classifyS s' g').2.classifyS s g).1 = (e.classifyS s g).1 ∧
    ((a.classifyS s').2.classifyS s).1 = (a.classifyS s).1 ∧
    ((r.classifyS s').2.classifyS s).1 = (r.classifyS s).1 ∧
    ((n.classifyS s' g' d').2.classifyS s g d).1 = (n.classifyS s g d).1 :=
  ⟨rfl, rfl, rfl, rfl, rfl, rfl, rfl, rfl⟩

/-- Claim C10 (counterexample): the integer gold label `-1` lies outside the
binary class set, yet `NoisyMinion.classify` does not fail — numpy
end-relative indexing makes `confusion_matrix[-1]` select the last entry, and
the call returns the label pair `(3, -1)`. -/
theorem noisyMinion_negative_index_returns_label :
    NoisyMinion.classify ⟨1, [1/2, 1/2]⟩ 3 (-1) 0 = Except.ok (3, -1) := by
  norm_num [NoisyMinion.classify, npGet]

/-- Claim C10 (amended): for a `NoisyMinion` whose confusion matrix has the
documented length 2, `classify` succeeds for gold labels 0 and 1 (the index
is in bounds), and fails with `IndexError` exactly for gold labels at least 2
or at most -3; gold labels -1 and -2 also succeed via numpy end-relative
indexing. -/
theorem noisyMinion_classify_totality_amended (m : NoisyMinion)
    (hm : m.confusion_matrix.length = 2) (s g : Int) (d : ℚ) :
    ((g = 0 ∨ g = 1) → ∃ L : Int, m.classify s g d = Except.ok (s, L)) ∧
    ((2 ≤ g ∨ g ≤ -3) → m.classify s g d = Except.error PyErr.indexError) := by
  obtain ⟨a, b, hab⟩ := List.length_eq_two.mp hm
  constructor
  · rintro (rfl | rfl)
    · simp only [NoisyMinion.classify, npGet, hab]
      norm_num
      split
      · exact ⟨0, rfl⟩
      · exact ⟨1, rfl⟩
    · simp only [NoisyMinion.classify, npGet, hab]
      norm_num
      split
      · exact ⟨1, rfl⟩
      · exact ⟨0, rfl⟩
  · intro hg
    simp only [NoisyMinion.classify, npGet, hab, List.length_cons,
      List.length_nil]
    rcases lt_or_le g 0 with hneg | hpos
    · rw [if_pos hneg, if_neg (by omega)]
    · rw [if_neg (not_lt.mpr hpos), if_pos hpos]
      have hnone : ([a, b] : List ℚ).get? g.toNat = none := by
        rw [List.get?_eq_none]
        simp only [List.length_cons, List.length_nil]
        omega
      rw [hnone]

/-- Claim C10 witness: with the concrete agent `NoisyMinion(1, [1/2, 1/2])`
(confusion matrix of length 2), gold label 2 makes `classify` fail with
`IndexError`. -/
theorem noisyMinion_classify_totality_amended_witness :
    (([1/2, 1/2] : List ℚ).length = 2) ∧
    NoisyMinion.classify ⟨1, [1/2, 1/2]⟩ 3 2 0 = Except.error PyErr.indexError :=
  ⟨rfl, (noisyMinion_classify_totality_amended ⟨1, [1/2, 1/2]⟩ rfl 3 2 0).2
    (Or.inl (by decide))⟩
